import Mathlib

/-!
# Verification of the file-backed to-do backend (`app.py`)

A shallow embedding of the Flask backend in `src/app.py`: JSON values,
the three persisted documents (users / todos / sessions), the auth helpers
(`create_token`, the `token_required` header check, `api_logout`), and the
task-store endpoints (`api_get_tasks`, `api_create_task`, `api_update_task`,
`api_delete_task`, `api_reorder`, `api_export`, `api_import`).

Python dictionaries are modelled as insertion-ordered association lists with
unique-key update (`dictSet` replaces an existing binding in place, otherwise
appends, exactly as `d[k] = v` behaves); `dict.get` with a default is
`dictGetD`; `del d[k]` is `dictRemove`.  The nondeterministic inputs of the
program (current time, random token / hex material, parsed request bodies)
are passed as explicit arguments.
-/

namespace TodoApp

/-- JSON values, as produced by Flask's `request.get_json()`.  Numbers are
modelled as integers (the app only ever inspects truthiness of numbers). -/
inductive JVal where
  | jnull
  | jbool (b : Bool)
  | jnum (n : Int)
  | jstr (s : String)
  | jarr (xs : List JVal)
  | jobj (kvs : List (String × JVal))

/-- Python truthiness (`bool(x)`) on JSON values:  `None`, `False`, `0`,
`""`, `[]`, `{}` are falsy, everything else truthy. -/
def truthy : JVal → Bool
  | .jnull => false
  | .jbool b => b
  | .jnum n => !(n == 0)
  | .jstr s => !(s == "")
  | .jarr xs => !xs.isEmpty
  | .jobj kvs => !kvs.isEmpty

/-- A task record as stored in `todos.json`.  The happy path stores a string
`title` and boolean `done` / `important`, but `api_update_task` and
`api_import` can store arbitrary JSON in those fields, so they are typed as
`JVal`. -/
structure Task where
  id : String
  title : JVal
  done : JVal
  important : JVal
  createdAt : String

/-- A session record: value of `sessions.json` under a token key. -/
structure Session where
  username : String
  createdAt : String

-- ---------- Python dict model ----------

/-- `d.get(k)` / `k in d`: first binding for `k` (bindings are unique by
construction). -/
def dictGet? (m : List (String × α)) (k : String) : Option α :=
  match m with
  | [] => none
  | (k', v) :: rest => if k' == k then some v else dictGet? rest k

/-- `d.get(k, default)`. -/
def dictGetD (m : List (String × α)) (k : String) (d : α) : α :=
  (dictGet? m k).getD d

/-- `d[k] = v`: replace the binding in place if present, else append. -/
def dictSet (m : List (String × α)) (k : String) (v : α) : List (String × α) :=
  match m with
  | [] => [(k, v)]
  | (k', v') :: rest =>
    if k' == k then (k, v) :: rest else (k', v') :: dictSet rest k v

/-- `del d[k]` (for a dict, at most one binding matches). -/
def dictRemove (m : List (String × α)) (k : String) : List (String × α) :=
  m.filter (fun kv => !(kv.1 == k))

-- ---------- dict lemmas ----------

theorem dictGet?_dictSet_self (m : List (String × α)) (k : String) (v : α) :
    dictGet? (dictSet m k v) k = some v := by
  induction m with
  | nil => simp [dictSet, dictGet?]
  | cons hd tl ih =>
    obtain ⟨k', v'⟩ := hd
    by_cases h : k' = k
    · simp [dictSet, dictGet?, h]
    · simp [dictSet, dictGet?, h, ih]

theorem dictGet?_dictSet_ne (m : List (String × α)) (k k' : String) (v : α)
    (h : k ≠ k') : dictGet? (dictSet m k v) k' = dictGet? m k' := by
  induction m with
  | nil => simp [dictSet, dictGet?, h]
  | cons hd tl ih =>
    obtain ⟨k₀, v₀⟩ := hd
    by_cases hk : k₀ = k
    · subst hk
      simp [dictSet, dictGet?, h]
    · by_cases hk' : k₀ = k'
      · subst hk'
        simp [dictSet, dictGet?, hk, Ne.symm h]
      · simp [dictSet, dictGet?, hk, hk', ih]

theorem dictGet?_dictRemove_self (m : List (String × α)) (k : String) :
    dictGet? (dictRemove m k) k = none := by
  induction m with
  | nil => simp [dictRemove, dictGet?]
  | cons hd tl ih =>
    obtain ⟨k₀, v₀⟩ := hd
    by_cases hk : k₀ = k
    · simpa [dictRemove, dictGet?, hk] using ih
    · simpa [dictRemove, dictGet?, hk] using ih

theorem dictGet?_dictRemove_ne (m : List (String × α)) (k k' : String)
    (h : k ≠ k') : dictGet? (dictRemove m k) k' = dictGet? m k' := by
  induction m with
  | nil => simp [dictRemove, dictGet?]
  | cons hd tl ih =>
    obtain ⟨k₀, v₀⟩ := hd
    by_cases hk : k₀ = k
    · subst hk
      simpa [dictRemove, dictGet?, h] using ih
    · by_cases hk' : k₀ = k'
      · subst hk'
        simp [dictRemove, dictGet?, hk]
      · simpa [dictRemove, dictGet?, hk, hk'] using ih

-- ---------- persistence layer (`read_json`) ----------

/-- The three persisted documents of the app. -/
inductive StoreFile where
  | usersFile
  | todosFile
  | sessionsFile
deriving DecidableEq

/-- `read_json(path)`: the outcome of opening and JSON-parsing the file is
passed in as `parsed` (`none` = any read/parse failure).  On failure the
function returns `{}` for the sessions and todos files and `[]` otherwise,
never propagating the exception (it is a total function). -/
def read_json (path : StoreFile) (parsed : Option JVal) : JVal :=
  match parsed with
  | some v => v
  | none =>
    if path = StoreFile.sessionsFile ∨ path = StoreFile.todosFile then
      .jobj []
    else
      .jarr []

-- ---------- auth helpers ----------

/-- The sessions document: token -> session record. -/
abbrev Sessions := List (String × Session)

/-- The todos document: username -> ordered task list. -/
abbrev TodosMap := List (String × List Task)

/-- API error outcomes (HTTP error bodies). -/
inductive ApiErr where
  | missingToken
  | invalidToken
  | validation
  | notFound
deriving DecidableEq

/-- `create_token(username)`: inserts `token -> {username, createdAt}` into
the sessions document and returns the token.  The random
`secrets.token_urlsafe(32)` value and the current time are inputs. -/
def create_token (sessions : Sessions) (username : String)
    (token now : String) : Sessions × String :=
  (dictSet sessions token ⟨username, now⟩, token)

/-- Header parsing in `token_required` / `api_logout`:
`header.startswith("Bearer ")` is "the first 7 characters are `Bearer␣`",
and the token is `header.split(" ", 1)[1]`.  Because the header starts with
`"Bearer "`, its first space is at character index 6, so the second split
component is exactly the text after the 7-character prefix. -/
def bearerToken? (header : String) : Option String :=
  if header.take 7 = "Bearer " then some (header.drop 7) else none

/-- `token_required`: on a well-formed header, looks the token up in the
sessions document; yields the session's username on success.  (An issued
session record is a nonempty dict, hence truthy, so `if not s` is exactly
the `None` check.) -/
def authenticate (header : String) (sessions : Sessions) :
    Except ApiErr String :=
  match bearerToken? header with
  | none => .error ApiErr.missingToken
  | some token =>
    match dictGet? sessions token with
    | none => .error ApiErr.invalidToken
    | some s => .ok s.username

/-- The sessions-document effect of `api_logout`: re-extract the token from
the (already validated) header and delete it if present. -/
def revoke_token (sessions : Sessions) (token : String) : Sessions :=
  if (dictGet? sessions token).isSome then dictRemove sessions token
  else sessions

/-- A sessions-document mutation: a later `create_token` (login) or
`api_logout` (revoke). -/
inductive SOp where
  | issue (username token now : String)
  | revoke (token : String)

/-- Apply one sessions mutation. -/
def applySOp (s : Sessions) : SOp → Sessions
  | .issue u tok now => (create_token s u tok now).1
  | .revoke tok => revoke_token s tok

/-- Apply a sequence of sessions mutations, oldest first. -/
def applySOps (s : Sessions) (ops : List SOp) : Sessions :=
  ops.foldl applySOp s

/-- The token a mutation would insert, if any. -/
def issuedToken? : SOp → Option String
  | .issue _ tok _ => some tok
  | .revoke _ => none

-- ---------- task endpoints ----------

/-- `GET /api/tasks`: `todos_map.get(username, [])`. -/
def api_get_tasks (m : TodosMap) (username : String) : List Task :=
  dictGetD m username []

/-- Body of `POST /api/tasks`.  `title` is the JSON string supplied (or
absent); `done` / `important` are arbitrary JSON values (or absent). -/
structure CreateBody where
  title : Option String
  done : Option JVal
  important : Option JVal

/-- Python's `str.strip()` (no argument): remove leading and trailing
whitespace characters. -/
def pyStrip (s : String) : String :=
  ⟨((s.data.dropWhile Char.isWhitespace).reverse.dropWhile
      Char.isWhitespace).reverse⟩

/-- `task_id = "id_" + str(int(time.time()*1000)) + "_" + secrets.token_hex(4)`. -/
def genId (millis : Nat) (hex : String) : String :=
  "id_" ++ Nat.repr millis ++ "_" ++ hex

/-- `POST /api/tasks`: trim the title (`(body.get("title") or "").strip()`),
reject an empty result with 400, else build the task (with `bool()`-coerced
`done` / `important`, defaulting to `False`) and prepend it to the user's
list.  The clock reading and random hex are inputs. -/
def api_create_task (m : TodosMap) (username : String) (body : CreateBody)
    (millis : Nat) (hex : String) (now : String) :
    Except ApiErr (TodosMap × Task) :=
  let title := pyStrip (body.title.getD "")
  if title = "" then .error ApiErr.validation
  else
    let task : Task :=
      { id := genId millis hex
        title := .jstr title
        done := .jbool (truthy (body.done.getD (.jbool false)))
        important := .jbool (truthy (body.important.getD (.jbool false)))
        createdAt := now }
    let lst := dictGetD m username []
    .ok (dictSet m username (task :: lst), task)

/-- Body of `PUT /api/tasks/<task_id>`: each field is `some v` exactly when
the key is present in the request JSON (`"title" in body` etc.), with `v`
the raw JSON value supplied. -/
structure PatchBody where
  title : Option JVal
  done : Option JVal
  important : Option JVal

/-- The per-task mutation of `api_update_task`: `title` is stored verbatim
when present, `done` / `important` are `bool()`-coerced when present; `id`
and `createdAt` are untouched. -/
def applyPatch (body : PatchBody) (t : Task) : Task :=
  let t₁ := match body.title with
    | some v => { t with title := v }
    | none => t
  let t₂ := match body.done with
    | some v => { t₁ with done := JVal.jbool (truthy v) }
    | none => t₁
  match body.important with
  | some v => { t₂ with important := JVal.jbool (truthy v) }
  | none => t₂

/-- The list scan of `api_update_task`: mutate the first task whose id
matches, in place; `none` when no task matches (404). -/
def updateFirst (task_id : String) (body : PatchBody) :
    List Task → Option (List Task × Task)
  | [] => none
  | t :: rest =>
    if t.id == task_id then
      let t' := applyPatch body t
      some (t' :: rest, t')
    else
      match updateFirst task_id body rest with
      | none => none
      | some (l, u) => some (t :: l, u)

/-- `PUT /api/tasks/<task_id>`. -/
def api_update_task (m : TodosMap) (username task_id : String)
    (body : PatchBody) : Except ApiErr (TodosMap × Task) :=
  match updateFirst task_id body (dictGetD m username []) with
  | none => .error ApiErr.notFound
  | some (l, t') => .ok (dictSet m username l, t')

/-- `DELETE /api/tasks/<task_id>`: keep the tasks whose id differs, store
back, and answer `{ok: true}` unconditionally (the endpoint has no error
branch, hence the total `Except`-free type). -/
def api_delete_task (m : TodosMap) (username task_id : String) : TodosMap :=
  let lst := dictGetD m username []
  let newlst := lst.filter (fun t => !(t.id == task_id))
  dictSet m username newlst

/-- A request-body field that is checked with `isinstance(x, list)`:
either a JSON list of `α` or anything else (including an absent key). -/
inductive ReqVal (α : Type) where
  | lst (xs : List α)
  | nonList

/-- `id_to_task = {t["id"]: t for t in lst}`: a dict built left to right, a
later task with the same id overwriting an earlier one. -/
def id_to_task (lst : List Task) : List (String × Task) :=
  lst.foldl (fun d t => dictSet d t.id t) []

/-- `newlst = [id_to_task[i] for i in order if i in id_to_task]`. -/
def reorderList (order : List String) (lst : List Task) : List Task :=
  order.filterMap (fun i => dictGet? (id_to_task lst) i)

/-- `POST /api/tasks/reorder`: 400 unless `order` is a list, else rebuild
the user's list from the submitted ids. -/
def api_reorder (m : TodosMap) (username : String)
    (order : ReqVal String) : Except ApiErr TodosMap :=
  match order with
  | .nonList => .error ApiErr.validation
  | .lst order =>
    let lst := dictGetD m username []
    .ok (dictSet m username (reorderList order lst))

/-- `GET /api/export`: the `todos` component of the response (the `meta`
envelope carries only the username and a timestamp). -/
def api_export (m : TodosMap) (username : String) : List Task :=
  dictGetD m username []

/-- `POST /api/import`: 400 unless `todos` is a list, else wholesale replace
the user's list with the supplied sequence. -/
def api_import (m : TodosMap) (username : String) (todos : ReqVal Task) :
    Except ApiErr TodosMap :=
  match todos with
  | .nonList => .error ApiErr.validation
  | .lst todos => .ok (dictSet m username todos)

-- ---------- proof-support definitions ----------

/-- The spec's example patch `{done: true}` (request body of
`PUT /api/tasks/<id>` containing only the key `"done"` with value `true`). -/
def donePatch : PatchBody :=
  { title := none, done := some (.jbool true), important := none }

/-- Decimal digits of `n` as characters, most significant first (the digit
string produced by Python's `str(n)` / Lean's `Nat.repr`); used to reason
about `genId`. -/
def decDigits (n : Nat) : List Char :=
  if n / 10 = 0 then [Nat.digitChar (n % 10)]
  else decDigits (n / 10) ++ [Nat.digitChar (n % 10)]
decreasing_by
  exact Nat.div_lt_self (Nat.pos_of_ne_zero (fun h0 => by simp [h0] at *))
    (by omega)

/-- Decode a decimal digit string back to a number (proof support for the
injectivity of `genId`). -/
def ofDecChars (l : List Char) : Nat :=
  l.foldl (fun acc c => acc * 10 + (c.toNat - 48)) 0

-- ---------- auth lemmas ----------

theorem bearerToken?_append (t : String) :
    bearerToken? ("Bearer " ++ t) = some t := by
  have h₁ : ("Bearer " ++ t).take 7 = "Bearer " := by
    apply String.ext
    simp [String.take_eq]
  have h₂ : ("Bearer " ++ t).drop 7 = t := by
    apply String.ext
    simp [String.drop_eq]
  unfold bearerToken?
  rw [if_pos h₁, h₂]

theorem authenticate_of_lookup (sessions : Sessions) (token : String)
    (s : Session) (h : dictGet? sessions token = some s) :
    authenticate ("Bearer " ++ token) sessions = .ok s.username := by
  unfold authenticate
  simp only [bearerToken?_append, h]

theorem dictGet?_revoke_self (sessions : Sessions) (token : String) :
    dictGet? (revoke_token sessions token) token = none := by
  unfold revoke_token
  by_cases h : (dictGet? sessions token).isSome
  · simp [h, dictGet?_dictRemove_self]
  · simp only [h, if_false]
    exact Option.not_isSome_iff_eq_none.mp h

theorem dictGet?_revoke_of_none (sessions : Sessions) (token token' : String)
    (h : dictGet? sessions token = none) :
    dictGet? (revoke_token sessions token') token = none := by
  unfold revoke_token
  by_cases hs : (dictGet? sessions token').isSome
  · simp only [hs, if_true]
    by_cases he : token' = token
    · subst he
      exact dictGet?_dictRemove_self sessions token'
    · rw [dictGet?_dictRemove_ne sessions token' token he]
      exact h
  · simpa [hs] using h

theorem dictGet?_applySOps_of_none (token : String) (ops : List SOp) :
    ∀ (s : Sessions), dictGet? s token = none →
      (∀ op ∈ ops, issuedToken? op ≠ some token) →
      dictGet? (applySOps s ops) token = none := by
  induction ops with
  | nil => intro s h _; exact h
  | cons op rest ih =>
    intro s h hops
    have hstep : dictGet? (applySOp s op) token = none := by
      cases op with
      | issue u tok now =>
        have hne : tok ≠ token := by
          intro he
          exact hops _ (List.mem_cons_self _ _) (by simp [issuedToken?, he])
        simpa [applySOp, create_token, dictGet?_dictSet_ne s tok token _ hne]
          using h
      | revoke tok => exact dictGet?_revoke_of_none s token tok h
    exact ih (applySOp s op) hstep (fun op' hop' => hops op' (List.mem_cons_of_mem _ hop'))

/-- **C1** — Token lifecycle round-trip.  (i) A token inserted by
`create_token(username)` authenticates (via the `Bearer` header) to that
username; (ii) more generally, any token still mapped in the sessions
document authenticates to the mapped username; (iii) immediately after
revocation (`api_logout`) the token fails with `invalid token`; and (iv) it
keeps failing across any later sequence of logins and logouts that does not
issue that same token string again. -/
theorem C1_token_lifecycle :
    (∀ (sessions : Sessions) (username token now : String),
      authenticate ("Bearer " ++ token)
        (create_token sessions username token now).1 = .ok username) ∧
    (∀ (sessions : Sessions) (token : String) (s : Session),
      dictGet? sessions token = some s →
      authenticate ("Bearer " ++ token) sessions = .ok s.username) ∧
    (∀ (sessions : Sessions) (token : String),
      authenticate ("Bearer " ++ token) (revoke_token sessions token)
        = .error ApiErr.invalidToken) ∧
    (∀ (sessions : Sessions) (token : String) (ops : List SOp),
      (∀ op ∈ ops, issuedToken? op ≠ some token) →
      authenticate ("Bearer " ++ token)
        (applySOps (revoke_token sessions token) ops)
        = .error ApiErr.invalidToken) := by
  refine ⟨?_, ?_, ?_, ?_⟩
  · intro sessions username token now
    exact authenticate_of_lookup _ token ⟨username, now⟩
      (dictGet?_dictSet_self sessions token ⟨username, now⟩)
  · intro sessions token s h
    exact authenticate_of_lookup sessions token s h
  · intro sessions token
    unfold authenticate
    simp only [bearerToken?_append, dictGet?_revoke_self]
  · intro sessions token ops hops
    have h := dictGet?_applySOps_of_none token ops
      (revoke_token sessions token) (dictGet?_revoke_self sessions token) hops
    unfold authenticate
    simp only [bearerToken?_append, h]

/-- Witness for C1 at concrete inputs: issue `tok1` to alice, authenticate,
revoke it, let bob log in with a different token, and check `tok1` still
fails. -/
theorem C1_token_lifecycle_witness :
    authenticate ("Bearer " ++ "tok1")
      (create_token [] "alice" "tok1" "t0").1 = .ok "alice" ∧
    authenticate ("Bearer " ++ "tok1")
      (applySOps (revoke_token (create_token [] "alice" "tok1" "t0").1 "tok1")
        [SOp.issue "bob" "tok2" "t1", SOp.revoke "tok2"])
      = .error ApiErr.invalidToken :=
  ⟨C1_token_lifecycle.1 [] "alice" "tok1" "t0",
   C1_token_lifecycle.2.2.2 (create_token [] "alice" "tok1" "t0").1 "tok1"
     [SOp.issue "bob" "tok2" "t1", SOp.revoke "tok2"]
     (by intro op hop; fin_cases hop <;> simp [issuedToken?])⟩

-- ---------- task-store lemmas ----------

theorem api_get_tasks_dictSet_self (m : TodosMap) (u : String)
    (lst : List Task) : api_get_tasks (dictSet m u lst) u = lst := by
  unfold api_get_tasks dictGetD
  rw [dictGet?_dictSet_self]
  rfl

theorem api_get_tasks_dictSet_ne (m : TodosMap) (u u' : String)
    (lst : List Task) (h : u ≠ u') :
    api_get_tasks (dictSet m u lst) u' = api_get_tasks m u' := by
  unfold api_get_tasks dictGetD
  rw [dictGet?_dictSet_ne m u u' lst h]

/-- **C2** — Create contract.  `api_create_task` answers 400
(`ValidationError`) exactly when the supplied title is empty after
stripping whitespace; on success the new task carries the stripped title,
`done` and `important` default to `false` when the body omits them, and an
immediately following `api_get_tasks` returns the new task as the head of
the previous list. -/
theorem C2_create_contract :
    (∀ (m : TodosMap) (u : String) (body : CreateBody) (millis : Nat)
        (hex now : String),
      api_create_task m u body millis hex now = .error ApiErr.validation ↔
        pyStrip (body.title.getD "") = "") ∧
    (∀ (m : TodosMap) (u : String) (body : CreateBody) (millis : Nat)
        (hex now : String) (m' : TodosMap) (task : Task),
      api_create_task m u body millis hex now = .ok (m', task) →
        task.title = .jstr (pyStrip (body.title.getD "")) ∧
        (body.done = none → task.done = .jbool false) ∧
        (body.important = none → task.important = .jbool false) ∧
        api_get_tasks m' u = task :: api_get_tasks m u) := by
  constructor
  · intro m u body millis hex now
    unfold api_create_task
    by_cases h : pyStrip (body.title.getD "") = "" <;> simp [h]
  · intro m u body millis hex now m' task h
    unfold api_create_task at h
    by_cases ht : pyStrip (body.title.getD "") = ""
    · simp [ht] at h
    · simp only [ht, if_neg, if_false] at h
      obtain ⟨hm, htask⟩ := Prod.mk.injEq .. ▸ (Except.ok.injEq .. ▸ h)
      subst hm htask
      refine ⟨rfl, ?_, ?_, ?_⟩
      · intro hd; simp [hd, truthy]
      · intro hi; simp [hi, truthy]
      · rw [api_get_tasks_dictSet_self]
        rfl

/-- Witness for C2: the blank title `"   "` is rejected, and creating
`" Buy milk "` on an empty store yields a stripped task, listed first. -/
theorem C2_create_contract_witness :
    (api_create_task [] "alice" ⟨some "   ", none, none⟩ 5 "abcd1234" "t0"
      = .error ApiErr.validation) ∧
    (({ id := genId 5 "abcd1234", title := JVal.jstr "Buy milk",
        done := JVal.jbool false, important := JVal.jbool false,
        createdAt := "t0" } : Task).title
        = .jstr (pyStrip ((⟨some " Buy milk ", none, none⟩ :
            CreateBody).title.getD "")) ∧
      ((⟨some " Buy milk ", none, none⟩ : CreateBody).done = none →
        ({ id := genId 5 "abcd1234", title := JVal.jstr "Buy milk",
           done := JVal.jbool false, important := JVal.jbool false,
           createdAt := "t0" } : Task).done = .jbool false) ∧
      ((⟨some " Buy milk ", none, none⟩ : CreateBody).important = none →
        ({ id := genId 5 "abcd1234", title := JVal.jstr "Buy milk",
           done := JVal.jbool false, important := JVal.jbool false,
           createdAt := "t0" } : Task).important = .jbool false) ∧
      api_get_tasks
          (dictSet [] "alice"
            [{ id := genId 5 "abcd1234", title := JVal.jstr "Buy milk",
               done := JVal.jbool false, important := JVal.jbool false,
               createdAt := "t0" }]) "alice"
        = { id := genId 5 "abcd1234", title := JVal.jstr "Buy milk",
            done := JVal.jbool false, important := JVal.jbool false,
            createdAt := "t0" } :: api_get_tasks [] "alice") :=
  ⟨(C2_create_contract.1 [] "alice" ⟨some "   ", none, none⟩ 5 "abcd1234"
      "t0").mpr rfl,
   C2_create_contract.2 [] "alice" ⟨some " Buy milk ", none, none⟩ 5
     "abcd1234" "t0"
     (dictSet [] "alice"
       [{ id := genId 5 "abcd1234", title := JVal.jstr "Buy milk",
          done := JVal.jbool false, important := JVal.jbool false,
          createdAt := "t0" }])
     { id := genId 5 "abcd1234", title := JVal.jstr "Buy milk",
       done := JVal.jbool false, important := JVal.jbool false,
       createdAt := "t0" }
     rfl⟩

-- ---------- decimal representation lemmas (for the id scheme) ----------

theorem toDigitsCore_eq (fuel : Nat) :
    ∀ (n : Nat) (ds : List Char), n < fuel →
      Nat.toDigitsCore 10 fuel n ds = decDigits n ++ ds := by
  induction fuel with
  | zero => omega
  | succ fuel ih =>
    intro n ds h
    unfold Nat.toDigitsCore
    by_cases h0 : n / 10 = 0
    · rw [decDigits]
      simp [h0]
    · rw [decDigits]
      simp only [h0, if_false]
      have hlt : n / 10 < fuel :=
        Nat.lt_of_lt_of_le (Nat.div_lt_self (by omega) (by omega))
          (Nat.lt_succ_iff.mp h)
      rw [ih (n / 10) _ hlt]
      simp

theorem repr_eq_decDigits (n : Nat) : Nat.repr n = (decDigits n).asString := by
  show (Nat.toDigits 10 n).asString = _
  unfold Nat.toDigits
  rw [toDigitsCore_eq (n + 1) n [] (Nat.lt_succ_self n)]
  simp

theorem digitChar_val : ∀ d, d < 10 → (Nat.digitChar d).toNat - 48 = d := by
  decide

theorem ofDecChars_append_singleton (l : List Char) (c : Char) :
    ofDecChars (l ++ [c]) = ofDecChars l * 10 + (c.toNat - 48) := by
  simp [ofDecChars, List.foldl_append]

theorem ofDecChars_decDigits (n : Nat) : ofDecChars (decDigits n) = n := by
  induction n using Nat.strong_induction_on with
  | _ n ih =>
    rw [decDigits]
    by_cases h0 : n / 10 = 0
    · rw [if_pos h0]
      have hv := digitChar_val (n % 10) (by omega)
      simp only [ofDecChars, List.foldl]
      omega
    · rw [if_neg h0]
      have hlt : n / 10 < n := Nat.div_lt_self (by omega) (by omega)
      rw [ofDecChars_append_singleton, ih (n / 10) hlt]
      have hv := digitChar_val (n % 10) (by omega)
      omega

theorem decDigits_injective : Function.Injective decDigits := by
  intro m n h
  have h2 := congrArg ofDecChars h
  rwa [ofDecChars_decDigits, ofDecChars_decDigits] at h2

theorem natRepr_injective : Function.Injective Nat.repr := by
  intro m n h
  rw [repr_eq_decDigits, repr_eq_decDigits] at h
  apply decDigits_injective
  have h2 : (decDigits m).asString.data = (decDigits n).asString.data :=
    congrArg String.data h
  simpa [List.asString] using h2

theorem genId_inj (m₁ m₂ : Nat) (h₁ h₂ : String)
    (e₁ : h₁.length = 8) (e₂ : h₂.length = 8)
    (h : genId m₁ h₁ = genId m₂ h₂) : m₁ = m₂ ∧ h₁ = h₂ := by
  have hd := congrArg String.data h
  simp only [genId, String.data_append, List.append_assoc] at hd
  simp only [List.cons_append, List.nil_append, List.cons.injEq,
    true_and] at hd
  have hlen : ('_' :: h₁.data).length = ('_' :: h₂.data).length := by
    have l₁ : h₁.data.length = 8 := e₁
    have l₂ : h₂.data.length = 8 := e₂
    simp [l₁, l₂]
  have hd2 : (Nat.repr m₁).data ++ ('_' :: h₁.data)
      = (Nat.repr m₂).data ++ ('_' :: h₂.data) := by
    simpa using hd
  obtain ⟨hrepr, hcons⟩ := List.append_inj' hd2 hlen
  refine ⟨natRepr_injective (String.ext hrepr), String.ext ?_⟩
  simpa using hcons

/-- **C8 counterexample** — two distinct `api_create_task` calls (different
users, different titles) that draw the same clock reading and the same
8-hex-character random string are assigned the *same* task id: the
generation scheme alone does not exclude collisions. -/
theorem C8_id_collision_counterexample :
    api_create_task [] "alice" ⟨some "task A", none, none⟩
        1700000000000 "deadbeef" "t0"
      = .ok ([("alice",
          [{ id := genId 1700000000000 "deadbeef",
             title := JVal.jstr "task A", done := JVal.jbool false,
             important := JVal.jbool false, createdAt := "t0" }])],
          { id := genId 1700000000000 "deadbeef",
            title := JVal.jstr "task A", done := JVal.jbool false,
            important := JVal.jbool false, createdAt := "t0" }) ∧
    api_create_task [] "bob" ⟨some "task B", none, none⟩
        1700000000000 "deadbeef" "t1"
      = .ok ([("bob",
          [{ id := genId 1700000000000 "deadbeef",
             title := JVal.jstr "task B", done := JVal.jbool false,
             important := JVal.jbool false, createdAt := "t1" }])],
          { id := genId 1700000000000 "deadbeef",
            title := JVal.jstr "task B", done := JVal.jbool false,
            important := JVal.jbool false, createdAt := "t1" }) ∧
    ({ id := genId 1700000000000 "deadbeef", title := JVal.jstr "task A",
       done := JVal.jbool false, important := JVal.jbool false,
       createdAt := "t0" } : Task).id
      = ({ id := genId 1700000000000 "deadbeef",
           title := JVal.jstr "task B", done := JVal.jbool false,
           important := JVal.jbool false, createdAt := "t1" } : Task).id ∧
    ({ id := genId 1700000000000 "deadbeef", title := JVal.jstr "task A",
       done := JVal.jbool false, important := JVal.jbool false,
       createdAt := "t0" } : Task)
      ≠ ({ id := genId 1700000000000 "deadbeef",
           title := JVal.jstr "task B", done := JVal.jbool false,
           important := JVal.jbool false, createdAt := "t1" } : Task) := by
  refine ⟨rfl, rfl, rfl, ?_⟩
  intro hc
  have := congrArg Task.title hc
  simp at this

/-- **C8 (amended)** — Id uniqueness holds exactly up to the randomness:
every successful create is assigned the id
`"id_" + str(millis) + "_" + hex`, and two creates whose
(epoch-millis, 8-hex-random) draws differ receive distinct ids.  (With
equal draws the ids collide, see the counterexample.) -/
theorem C8_id_uniqueness_amended :
    (∀ (m : TodosMap) (u : String) (body : CreateBody) (millis : Nat)
        (hex now : String) (m' : TodosMap) (task : Task),
      api_create_task m u body millis hex now = .ok (m', task) →
      task.id = genId millis hex) ∧
    (∀ (m₁ m₂ : Nat) (h₁ h₂ : String),
      h₁.length = 8 → h₂.length = 8 → (m₁, h₁) ≠ (m₂, h₂) →
      genId m₁ h₁ ≠ genId m₂ h₂) := by
  constructor
  · intro m u body millis hex now m' task h
    unfold api_create_task at h
    by_cases ht : pyStrip (body.title.getD "") = ""
    · simp [ht] at h
    · simp only [ht, if_neg, if_false] at h
      obtain ⟨hm, htask⟩ := Prod.mk.injEq .. ▸ (Except.ok.injEq .. ▸ h)
      subst htask
      rfl
  · intro m₁ m₂ h₁ h₂ e₁ e₂ hne hc
    obtain ⟨hm, hh⟩ := genId_inj m₁ m₂ h₁ h₂ e₁ e₂ hc
    exact hne (by rw [hm, hh])

/-- Witness for the amended C8: the clock readings 1 and 2 with the same
hex draw give different ids, and a concrete create stores the scheme's id. -/
theorem C8_id_uniqueness_amended_witness :
    ({ id := genId 7 "aaaabbbb", title := JVal.jstr "x",
       done := JVal.jbool false, important := JVal.jbool false,
       createdAt := "t0" } : Task).id = genId 7 "aaaabbbb" ∧
    genId 1 "aaaaaaaa" ≠ genId 2 "aaaaaaaa" :=
  ⟨C8_id_uniqueness_amended.1 [] "u" ⟨some "x", none, none⟩ 7 "aaaabbbb" "t0"
      ([("u", [{ id := genId 7 "aaaabbbb", title := JVal.jstr "x",
                 done := JVal.jbool false, important := JVal.jbool false,
                 createdAt := "t0" }])])
      ({ id := genId 7 "aaaabbbb", title := JVal.jstr "x",
         done := JVal.jbool false, important := JVal.jbool false,
         createdAt := "t0" }) rfl,
   C8_id_uniqueness_amended.2 1 2 "aaaaaaaa" "aaaaaaaa" rfl rfl
     (by simp)⟩

theorem dictGetD_dictSet_self (m : List (String × α)) (k : String)
    (v d : α) : dictGetD (dictSet m k v) k d = v := by
  unfold dictGetD
  rw [dictGet?_dictSet_self]
  rfl

/-- **C5** — Delete is a no-op success on a missing id.  `api_delete_task`
has no error branch at all (it always stores the filtered list and answers
`{ok: true}`, never 404): the stored list is exactly the previous list with
every matching task filtered out, so (i) when no task matches, the user's
list is unchanged; (ii) a task survives iff it was there and its id
differs; (iii) the surviving tasks keep their relative order (sublist). -/
theorem C5_delete_missing_id_noop :
    (∀ (m : TodosMap) (u tid : String),
      api_delete_task m u tid
        = dictSet m u
            ((api_get_tasks m u).filter (fun t => !(t.id == tid)))) ∧
    (∀ (m : TodosMap) (u tid : String),
      (∀ t ∈ api_get_tasks m u, t.id ≠ tid) →
      api_get_tasks (api_delete_task m u tid) u = api_get_tasks m u) ∧
    (∀ (m : TodosMap) (u tid : String) (t : Task),
      t ∈ api_get_tasks (api_delete_task m u tid) u ↔
        t ∈ api_get_tasks m u ∧ t.id ≠ tid) ∧
    (∀ (m : TodosMap) (u tid : String),
      (api_get_tasks (api_delete_task m u tid) u).Sublist
        (api_get_tasks m u)) := by
  refine ⟨fun m u tid => rfl, ?_, ?_, ?_⟩
  · intro m u tid h
    show api_get_tasks (dictSet m u _) u = _
    rw [api_get_tasks_dictSet_self]
    apply List.filter_eq_self.mpr
    intro t ht
    simpa using h t ht
  · intro m u tid t
    show t ∈ api_get_tasks (dictSet m u _) u ↔ _
    rw [api_get_tasks_dictSet_self]
    unfold api_get_tasks
    simp [List.mem_filter]
  · intro m u tid
    show (api_get_tasks (dictSet m u _) u).Sublist _
    rw [api_get_tasks_dictSet_self]
    exact List.filter_sublist _

/-- Witness for C5: deleting the id `"nope"`, which matches nothing in
alice's one-task list, leaves the list unchanged. -/
theorem C5_delete_missing_id_noop_witness :
    api_get_tasks
        (api_delete_task
          [("alice", [{ id := "a", title := JVal.jstr "x",
                        done := JVal.jbool false,
                        important := JVal.jbool false,
                        createdAt := "t0" }])] "alice" "nope") "alice"
      = api_get_tasks
          [("alice", [{ id := "a", title := JVal.jstr "x",
                        done := JVal.jbool false,
                        important := JVal.jbool false,
                        createdAt := "t0" }])] "alice" :=
  C5_delete_missing_id_noop.2.1
    [("alice", [{ id := "a", title := JVal.jstr "x",
                  done := JVal.jbool false, important := JVal.jbool false,
                  createdAt := "t0" }])] "alice" "nope"
    (by intro t ht
        simp only [api_get_tasks, dictGetD, dictGet?] at ht
        simp at ht
        subst ht
        simp)

/-- **C6** — Export/Import round-trip.  `api_import` wholesale replaces the
user's list with the supplied sequence (no merge, validation or dedup: the
success result is literally `dictSet m u todos`), so importing the value
just exported reproduces exactly the same list contents in the same
order. -/
theorem C6_export_import_roundtrip :
    (∀ (m : TodosMap) (u : String) (todos : List Task),
      api_import m u (.lst todos) = .ok (dictSet m u todos)) ∧
    (∀ (m : TodosMap) (u : String) (m' : TodosMap),
      api_import m u (.lst (api_export m u)) = .ok m' →
      api_export m' u = api_export m u) := by
  constructor
  · intro m u todos
    rfl
  · intro m u m' h
    have hm : dictSet m u (api_export m u) = m' := by
      simpa [api_import] using h
    subst hm
    show dictGetD (dictSet m u _) u [] = _
    rw [dictGetD_dictSet_self]

/-- Witness for C6: exporting alice's two-task list and importing the
result leaves her list identical. -/
theorem C6_export_import_roundtrip_witness :
    api_export
        (dictSet
          [("alice", [{ id := "a", title := JVal.jstr "x",
                        done := JVal.jbool false,
                        important := JVal.jbool false,
                        createdAt := "t0" },
                      { id := "b", title := JVal.jstr "y",
                        done := JVal.jbool true,
                        important := JVal.jbool false,
                        createdAt := "t1" }])] "alice"
          (api_export
            [("alice", [{ id := "a", title := JVal.jstr "x",
                          done := JVal.jbool false,
                          important := JVal.jbool false,
                          createdAt := "t0" },
                        { id := "b", title := JVal.jstr "y",
                          done := JVal.jbool true,
                          important := JVal.jbool false,
                          createdAt := "t1" }])] "alice")) "alice"
      = api_export
          [("alice", [{ id := "a", title := JVal.jstr "x",
                        done := JVal.jbool false,
                        important := JVal.jbool false,
                        createdAt := "t0" },
                      { id := "b", title := JVal.jstr "y",
                        done := JVal.jbool true,
                        important := JVal.jbool false,
                        createdAt := "t1" }])] "alice" :=
  C6_export_import_roundtrip.2
    [("alice", [{ id := "a", title := JVal.jstr "x",
                  done := JVal.jbool false, important := JVal.jbool false,
                  createdAt := "t0" },
                { id := "b", title := JVal.jstr "y",
                  done := JVal.jbool true, important := JVal.jbool false,
                  createdAt := "t1" }])] "alice" _ rfl

-- ---------- update lemmas ----------

theorem applyPatch_id_createdAt (body : PatchBody) (t : Task) :
    (applyPatch body t).id = t.id ∧
    (applyPatch body t).createdAt = t.createdAt := by
  obtain ⟨bt, bd, bi⟩ := body
  cases bt <;> cases bd <;> cases bi <;> exact ⟨rfl, rfl⟩

theorem applyPatch_title_verbatim (body : PatchBody) (t : Task) (v : JVal)
    (h : body.title = some v) : (applyPatch body t).title = v := by
  obtain ⟨bt, bd, bi⟩ := body
  cases h
  cases bd <;> cases bi <;> rfl

theorem updateFirst_decomp (tid : String) (body : PatchBody) :
    ∀ (pre : List Task) (t : Task) (post : List Task),
      (∀ p ∈ pre, p.id ≠ tid) → t.id = tid →
      updateFirst tid body (pre ++ t :: post)
        = some (pre ++ applyPatch body t :: post, applyPatch body t) := by
  intro pre
  induction pre with
  | nil =>
    intro t post _ ht
    simp [updateFirst, ht]
  | cons p rest ih =>
    intro t post hpre ht
    have hp : p.id ≠ tid := hpre p (List.mem_cons_self _ _)
    have hrec := ih t post (fun q hq => hpre q (List.mem_cons_of_mem _ hq)) ht
    simp only [List.cons_append, updateFirst, List.append_eq]
    rw [if_neg (by simpa using hp), hrec]

theorem updateFirst_result (tid : String) (body : PatchBody) :
    ∀ (lst lst' : List Task) (t' : Task),
      updateFirst tid body lst = some (lst', t') →
      ∃ t ∈ lst, t' = applyPatch body t := by
  intro lst
  induction lst with
  | nil => intro lst' t' h; simp [updateFirst] at h
  | cons t rest ih =>
    intro lst' t' h
    unfold updateFirst at h
    by_cases hid : (t.id == tid) = true
    · rw [if_pos hid] at h
      obtain ⟨-, h2⟩ := Prod.mk.injEq .. ▸ (Option.some.injEq .. ▸ h)
      exact ⟨t, List.mem_cons_self _ _, h2.symm⟩
    · rw [if_neg hid] at h
      cases hrest : updateFirst tid body rest with
      | none => rw [hrest] at h; cases h
      | some lu =>
        obtain ⟨l, u⟩ := lu
        rw [hrest] at h
        obtain ⟨-, h2⟩ := Prod.mk.injEq .. ▸ (Option.some.injEq .. ▸ h)
        obtain ⟨t₀, ht₀, he⟩ := ih l u hrest
        exact ⟨t₀, List.mem_cons_of_mem _ ht₀, h2 ▸ he⟩

theorem api_update_task_ok (m : TodosMap) (u tid : String)
    (body : PatchBody) (m' : TodosMap) (t' : Task)
    (h : api_update_task m u tid body = .ok (m', t')) :
    ∃ l, updateFirst tid body (api_get_tasks m u) = some (l, t') ∧
      m' = dictSet m u l := by
  unfold api_update_task at h
  cases hu : updateFirst tid body (dictGetD m u []) with
  | none => rw [hu] at h; cases h
  | some lu =>
    obtain ⟨l, t₀⟩ := lu
    rw [hu] at h
    obtain ⟨h1, h2⟩ := Prod.mk.injEq .. ▸ (Except.ok.injEq .. ▸ h)
    exact ⟨l, by rw [← h2]; exact hu, h1.symm⟩

/-- **C4** — Update frame property: (i) `applyPatch` never changes `id` or
`createdAt`, whatever the patch; (ii) the `{done: true}` patch changes
exactly the `done` field of the patched task; (iii) at the store level, a
successful `Update(tid, {done:true})` rewrites the user's list as
`pre ++ patched :: post` — the first matching task gets `done := true` and
every other task, and every other user's list, is unchanged. -/
theorem C4_update_frame :
    (∀ (body : PatchBody) (t : Task),
      (applyPatch body t).id = t.id ∧
      (applyPatch body t).createdAt = t.createdAt) ∧
    (∀ t : Task, applyPatch donePatch t = { t with done := .jbool true }) ∧
    (∀ (m : TodosMap) (u tid : String) (pre post : List Task) (t : Task)
        (m' : TodosMap) (t' : Task),
      api_get_tasks m u = pre ++ t :: post →
      (∀ p ∈ pre, p.id ≠ tid) →
      t.id = tid →
      api_update_task m u tid donePatch = .ok (m', t') →
      t' = { t with done := .jbool true } ∧
      api_get_tasks m' u = pre ++ t' :: post ∧
      (∀ u', u' ≠ u → api_get_tasks m' u' = api_get_tasks m u')) := by
  refine ⟨applyPatch_id_createdAt, fun t => rfl, ?_⟩
  intro m u tid pre post t m' t' h1 hpre ht h4
  unfold api_update_task at h4
  unfold api_get_tasks at h1
  rw [h1, updateFirst_decomp tid donePatch pre t post hpre ht] at h4
  obtain ⟨hm, ht'⟩ := Prod.mk.injEq .. ▸ (Except.ok.injEq .. ▸ h4)
  subst ht'
  refine ⟨rfl, ?_, ?_⟩
  · rw [← hm, api_get_tasks_dictSet_self]
  · intro u' hu'
    rw [← hm, api_get_tasks_dictSet_ne m u u' _ (Ne.symm hu')]

/-- Witness for C4: patching task `"a"` of alice's two-task list with
`{done: true}` flips only its `done` flag, keeps task `"b"` in place, and
leaves bob's list untouched. -/
theorem C4_update_frame_witness :
    ({ id := "a", title := JVal.jstr "x", done := JVal.jbool true,
       important := JVal.jbool true, createdAt := "t0" } : Task)
      = { ({ id := "a", title := JVal.jstr "x", done := JVal.jbool false,
             important := JVal.jbool true, createdAt := "t0" } : Task) with
          done := JVal.jbool true } ∧
    api_get_tasks
        (dictSet
          [("alice", [{ id := "a", title := JVal.jstr "x",
                        done := JVal.jbool false,
                        important := JVal.jbool true, createdAt := "t0" },
                      { id := "b", title := JVal.jstr "y",
                        done := JVal.jbool false,
                        important := JVal.jbool false,
                        createdAt := "t1" }]),
           ("bob", [{ id := "c", title := JVal.jstr "z",
                      done := JVal.jbool false,
                      important := JVal.jbool false,
                      createdAt := "t2" }])] "alice"
          [{ id := "a", title := JVal.jstr "x", done := JVal.jbool true,
             important := JVal.jbool true, createdAt := "t0" },
           { id := "b", title := JVal.jstr "y", done := JVal.jbool false,
             important := JVal.jbool false, createdAt := "t1" }]) "alice"
      = [{ id := "a", title := JVal.jstr "x", done := JVal.jbool true,
           important := JVal.jbool true, createdAt := "t0" },
         { id := "b", title := JVal.jstr "y", done := JVal.jbool false,
           important := JVal.jbool false, createdAt := "t1" }] ∧
    api_get_tasks
        (dictSet
          [("alice", [{ id := "a", title := JVal.jstr "x",
                        done := JVal.jbool false,
                        important := JVal.jbool true, createdAt := "t0" },
                      { id := "b", title := JVal.jstr "y",
                        done := JVal.jbool false,
                        important := JVal.jbool false,
                        createdAt := "t1" }]),
           ("bob", [{ id := "c", title := JVal.jstr "z",
                      done := JVal.jbool false,
                      important := JVal.jbool false,
                      createdAt := "t2" }])] "alice"
          [{ id := "a", title := JVal.jstr "x", done := JVal.jbool true,
             important := JVal.jbool true, createdAt := "t0" },
           { id := "b", title := JVal.jstr "y", done := JVal.jbool false,
             important := JVal.jbool false, createdAt := "t1" }]) "bob"
      = api_get_tasks
          [("alice", [{ id := "a", title := JVal.jstr "x",
                        done := JVal.jbool false,
                        important := JVal.jbool true, createdAt := "t0" },
                      { id := "b", title := JVal.jstr "y",
                        done := JVal.jbool false,
                        important := JVal.jbool false,
                        createdAt := "t1" }]),
           ("bob", [{ id := "c", title := JVal.jstr "z",
                      done := JVal.jbool false,
                      important := JVal.jbool false,
                      createdAt := "t2" }])] "bob" := by
  have h := C4_update_frame.2.2
    [("alice", [{ id := "a", title := JVal.jstr "x",
                  done := JVal.jbool false, important := JVal.jbool true,
                  createdAt := "t0" },
                { id := "b", title := JVal.jstr "y",
                  done := JVal.jbool false, important := JVal.jbool false,
                  createdAt := "t1" }]),
     ("bob", [{ id := "c", title := JVal.jstr "z",
                done := JVal.jbool false, important := JVal.jbool false,
                createdAt := "t2" }])] "alice" "a" []
    [{ id := "b", title := JVal.jstr "y", done := JVal.jbool false,
       important := JVal.jbool false, createdAt := "t1" }]
    ({ id := "a", title := JVal.jstr "x", done := JVal.jbool false,
       important := JVal.jbool true, createdAt := "t0" })
    (dictSet
      [("alice", [{ id := "a", title := JVal.jstr "x",
                    done := JVal.jbool false, important := JVal.jbool true,
                    createdAt := "t0" },
                  { id := "b", title := JVal.jstr "y",
                    done := JVal.jbool false, important := JVal.jbool false,
                    createdAt := "t1" }]),
       ("bob", [{ id := "c", title := JVal.jstr "z",
                  done := JVal.jbool false, important := JVal.jbool false,
                  createdAt := "t2" }])] "alice"
      [{ id := "a", title := JVal.jstr "x", done := JVal.jbool true,
         important := JVal.jbool true, createdAt := "t0" },
       { id := "b", title := JVal.jstr "y", done := JVal.jbool false,
         important := JVal.jbool false, createdAt := "t1" }])
    ({ id := "a", title := JVal.jstr "x", done := JVal.jbool true,
       important := JVal.jbool true, createdAt := "t0" })
    rfl (by simp) rfl rfl
  exact ⟨h.1, h.2.1, h.2.2 "bob" (by simp)⟩

/-- **C9** — Update applies `title` without validation: whenever the patch
body carries the key `"title"`, the supplied JSON value is stored verbatim
in the matched task and the call succeeds; in particular patching with
`title = ""` or `title = null` succeeds and leaves the task with an empty
or non-string (`null`) title, violating the data model's
non-empty-after-trim title shape. -/
theorem C9_update_title_unvalidated :
    (∀ (m : TodosMap) (u tid : String) (body : PatchBody) (v : JVal)
        (m' : TodosMap) (t' : Task),
      body.title = some v →
      api_update_task m u tid body = .ok (m', t') →
      t'.title = v) ∧
    (∀ (m : TodosMap) (u tid : String) (pre post : List Task) (t : Task),
      api_get_tasks m u = pre ++ t :: post →
      (∀ p ∈ pre, p.id ≠ tid) →
      t.id = tid →
      api_update_task m u tid ⟨some (.jstr ""), none, none⟩
        = .ok (dictSet m u (pre ++ { t with title := .jstr "" } :: post),
            { t with title := .jstr "" }) ∧
      api_update_task m u tid ⟨some .jnull, none, none⟩
        = .ok (dictSet m u (pre ++ { t with title := .jnull } :: post),
            { t with title := .jnull })) := by
  constructor
  · intro m u tid body v m' t' hv h
    obtain ⟨l, hu, -⟩ := api_update_task_ok m u tid body m' t' h
    obtain ⟨t, -, he⟩ := updateFirst_result tid body _ l t' hu
    rw [he]
    exact applyPatch_title_verbatim body t v hv
  · intro m u tid pre post t h1 hpre ht
    unfold api_get_tasks at h1
    constructor
    · unfold api_update_task
      rw [h1, updateFirst_decomp tid ⟨some (.jstr ""), none, none⟩
        pre t post hpre ht]
      rfl
    · unfold api_update_task
      rw [h1, updateFirst_decomp tid ⟨some .jnull, none, none⟩
        pre t post hpre ht]
      rfl

/-- Witness for C9: patching alice's only task with `title = null` succeeds
and stores the JSON `null` as the title. -/
theorem C9_update_title_unvalidated_witness :
    (api_update_task
        [("alice", [{ id := "a", title := JVal.jstr "x",
                      done := JVal.jbool false,
                      important := JVal.jbool false,
                      createdAt := "t0" }])] "alice" "a"
        ⟨some .jnull, none, none⟩
      = .ok (dictSet
          [("alice", [{ id := "a", title := JVal.jstr "x",
                        done := JVal.jbool false,
                        important := JVal.jbool false,
                        createdAt := "t0" }])] "alice"
          [{ id := "a", title := JVal.jnull, done := JVal.jbool false,
             important := JVal.jbool false, createdAt := "t0" }],
          { id := "a", title := JVal.jnull, done := JVal.jbool false,
            important := JVal.jbool false, createdAt := "t0" })) ∧
    ({ id := "a", title := JVal.jnull, done := JVal.jbool false,
       important := JVal.jbool false, createdAt := "t0" } : Task).title
      = JVal.jnull := by
  have h := (C9_update_title_unvalidated.2
    [("alice", [{ id := "a", title := JVal.jstr "x",
                  done := JVal.jbool false, important := JVal.jbool false,
                  createdAt := "t0" }])] "alice" "a" []
    ([] : List Task)
    ({ id := "a", title := JVal.jstr "x", done := JVal.jbool false,
       important := JVal.jbool false, createdAt := "t0" })
    rfl (by simp) rfl).2
  refine ⟨h, ?_⟩
  exact C9_update_title_unvalidated.1
    [("alice", [{ id := "a", title := JVal.jstr "x",
                  done := JVal.jbool false, important := JVal.jbool false,
                  createdAt := "t0" }])] "alice" "a"
    ⟨some .jnull, none, none⟩ JVal.jnull _ _ rfl h

-- ---------- reorder lemmas ----------

theorem dictGet?_dictSet (m : List (String × α)) (k i : String) (v : α) :
    dictGet? (dictSet m k v) i = if k = i then some v else dictGet? m i := by
  by_cases h : k = i
  · rw [if_pos h, h, dictGet?_dictSet_self]
  · rw [if_neg h, dictGet?_dictSet_ne m k i v h]

theorem id_to_task_go (lst : List Task) :
    ∀ (d : List (String × Task)) (i : String),
      dictGet? (lst.foldl (fun d t => dictSet d t.id t) d) i
        = (lst.reverse.find? (fun t => t.id == i)).or (dictGet? d i) := by
  induction lst with
  | nil => intro d i; simp
  | cons t rest ih =>
    intro d i
    rw [List.foldl_cons, ih (dictSet d t.id t) i]
    simp only [List.reverse_cons, List.find?_append]
    cases hfind : rest.reverse.find? (fun t => t.id == i) with
    | some u => rfl
    | none =>
      simp only [Option.none_or]
      rw [dictGet?_dictSet]
      by_cases hid : t.id = i
      · simp [hid]
      · simp [hid]

theorem id_to_task_lookup (lst : List Task) (i : String) :
    dictGet? (id_to_task lst) i
      = lst.reverse.find? (fun t => t.id == i) := by
  unfold id_to_task
  rw [id_to_task_go lst [] i]
  simp [dictGet?]

theorem id_to_task_lookup_mem (lst : List Task) (i : String) (t : Task)
    (h : dictGet? (id_to_task lst) i = some t) : t ∈ lst ∧ t.id = i := by
  rw [id_to_task_lookup] at h
  refine ⟨List.mem_reverse.mp (List.mem_of_find?_eq_some h), ?_⟩
  simpa using List.find?_some h

theorem id_to_task_lookup_none (lst : List Task) (i : String) :
    dictGet? (id_to_task lst) i = none ↔ i ∉ lst.map Task.id := by
  rw [id_to_task_lookup, List.find?_eq_none]
  constructor
  · intro h hmem
    obtain ⟨t, ht, hid⟩ := List.mem_map.mp hmem
    exact h t (List.mem_reverse.mpr ht) (by simp [hid])
  · intro h t ht hp
    exact h (List.mem_map.mpr ⟨t, List.mem_reverse.mp ht, by simpa using hp⟩)

theorem find?_reverse_of_nodup (lst : List Task) (i : String)
    (h : (lst.map Task.id).Nodup) :
    lst.reverse.find? (fun t => t.id == i)
      = lst.find? (fun t => t.id == i) := by
  induction lst with
  | nil => rfl
  | cons t rest ih =>
    simp only [List.map_cons, List.nodup_cons] at h
    obtain ⟨hid, hrest⟩ := h
    simp only [List.reverse_cons, List.find?_append, ih hrest]
    cases hfind : rest.find? (fun t => t.id == i) with
    | some u =>
      have hu : u.id = i := by simpa using List.find?_some hfind
      have humem : u ∈ rest := List.mem_of_find?_eq_some hfind
      have hne : ¬(t.id == i) = true := by
        simp only [beq_iff_eq]
        intro he
        exact hid (List.mem_map.mpr ⟨u, humem, by rw [hu, he]⟩)
      rw [List.find?_cons_of_neg (p := fun t => t.id == i) (a := t) rest hne,
        hfind]
      rfl
    | none =>
      simp only [Option.none_or]
      by_cases hp : (t.id == i) = true
      · rw [List.find?_cons_of_pos (p := fun t => t.id == i) (a := t) rest hp,
          List.find?_cons_of_pos (p := fun t => t.id == i) (a := t) [] hp]
      · rw [List.find?_cons_of_neg (p := fun t => t.id == i) (a := t) rest hp,
          List.find?_cons_of_neg (p := fun t => t.id == i) (a := t) [] hp,
          hfind]
        rfl

/-- **C3** — Reorder semantics.  On a well-formed list (distinct task ids),
a successful `api_reorder` stores, for each submitted id in input order,
the task bearing that id, dropping unknown ids; consequently every task in
the result comes from the old list with its id in the input, the result's
id sequence is exactly the input filtered to known ids (so duplicates in
the input survive and omitted tasks vanish), the spec's two examples hold,
and a non-list `order` is rejected with 400. -/
theorem C3_reorder_semantics :
    (∀ (m : TodosMap) (u : String) (order : List String) (m' : TodosMap),
      api_reorder m u (.lst order) = .ok m' →
      api_get_tasks m' u = reorderList order (api_get_tasks m u)) ∧
    (∀ (lst : List Task) (order : List String),
      (lst.map Task.id).Nodup →
      reorderList order lst
        = order.filterMap (fun i => lst.find? (fun t => t.id == i))) ∧
    (∀ (lst : List Task) (order : List String) (t : Task),
      t ∈ reorderList order lst → t ∈ lst ∧ t.id ∈ order) ∧
    (∀ (lst : List Task) (order : List String),
      (reorderList order lst).map Task.id
        = order.filter (fun i => decide (i ∈ lst.map Task.id))) ∧
    (∀ ta tb tc : Task, ta.id = "a" → tb.id = "b" → tc.id = "c" →
      reorderList ["b", "a"] [ta, tb, tc] = [tb, ta] ∧
      reorderList ["a", "a"] [ta, tb, tc] = [ta, ta]) ∧
    (∀ (m : TodosMap) (u : String),
      api_reorder m u .nonList = .error ApiErr.validation) := by
  refine ⟨?_, ?_, ?_, ?_, ?_, fun m u => rfl⟩
  · intro m u order m' h
    have hm : dictSet m u (reorderList order (dictGetD m u [])) = m' := by
      simpa [api_reorder] using h
    rw [← hm, api_get_tasks_dictSet_self]
    rfl
  · intro lst order hnd
    unfold reorderList
    apply List.filterMap_congr
    intro i _
    rw [id_to_task_lookup, find?_reverse_of_nodup lst i hnd]
  · intro lst order t ht
    obtain ⟨i, hi, hget⟩ := List.mem_filterMap.mp ht
    obtain ⟨hmem, hid⟩ := id_to_task_lookup_mem lst i t hget
    exact ⟨hmem, hid ▸ hi⟩
  · intro lst order
    induction order with
    | nil => rfl
    | cons i rest ih =>
      by_cases hmem : i ∈ lst.map Task.id
      · cases hget : dictGet? (id_to_task lst) i with
        | none =>
          exact absurd hmem ((id_to_task_lookup_none lst i).mp hget)
        | some t =>
          have hid : t.id = i := (id_to_task_lookup_mem lst i t hget).2
          have hdec : decide (i ∈ List.map Task.id lst) = true :=
            decide_eq_true hmem
          simp only [reorderList, List.filterMap_cons, hget,
            List.filter_cons, hdec, if_true, List.map_cons]
          rw [hid]
          exact congrArg (i :: ·) ih
      · have hget := (id_to_task_lookup_none lst i).mpr hmem
        have hdec : decide (i ∈ List.map Task.id lst) = false :=
          decide_eq_false hmem
        simp only [reorderList, List.filterMap_cons, hget,
          List.filter_cons, hdec, if_false]
        exact ih
  · intro ta tb tc h1 h2 h3
    constructor
    · show List.filterMap _ _ = _
      rw [List.filterMap_cons, List.filterMap_cons]
      unfold id_to_task
      simp [dictSet, dictGet?, h1, h2, h3]
    · show List.filterMap _ _ = _
      rw [List.filterMap_cons, List.filterMap_cons]
      unfold id_to_task
      simp [dictSet, dictGet?, h1, h2, h3]

/-- Witness for C3: reordering alice's list `[a, b, c]` with input
`[b, a]` yields `[b, a]` (task `c` dropped). -/
theorem C3_reorder_semantics_witness :
    reorderList ["b", "a"]
        [{ id := "a", title := JVal.jstr "x", done := JVal.jbool false,
           important := JVal.jbool false, createdAt := "t0" },
         { id := "b", title := JVal.jstr "y", done := JVal.jbool false,
           important := JVal.jbool false, createdAt := "t1" },
         { id := "c", title := JVal.jstr "z", done := JVal.jbool false,
           important := JVal.jbool false, createdAt := "t2" }]
      = [{ id := "b", title := JVal.jstr "y", done := JVal.jbool false,
           important := JVal.jbool false, createdAt := "t1" },
         { id := "a", title := JVal.jstr "x", done := JVal.jbool false,
           important := JVal.jbool false, createdAt := "t0" }] ∧
    reorderList ["a", "a"]
        [{ id := "a", title := JVal.jstr "x", done := JVal.jbool false,
           important := JVal.jbool false, createdAt := "t0" },
         { id := "b", title := JVal.jstr "y", done := JVal.jbool false,
           important := JVal.jbool false, createdAt := "t1" },
         { id := "c", title := JVal.jstr "z", done := JVal.jbool false,
           important := JVal.jbool false, createdAt := "t2" }]
      = [{ id := "a", title := JVal.jstr "x", done := JVal.jbool false,
           important := JVal.jbool false, createdAt := "t0" },
         { id := "a", title := JVal.jstr "x", done := JVal.jbool false,
           important := JVal.jbool false, createdAt := "t0" }] :=
  C3_reorder_semantics.2.2.2.2.1
    { id := "a", title := JVal.jstr "x", done := JVal.jbool false,
      important := JVal.jbool false, createdAt := "t0" }
    { id := "b", title := JVal.jstr "y", done := JVal.jbool false,
      important := JVal.jbool false, createdAt := "t1" }
    { id := "c", title := JVal.jstr "z", done := JVal.jbool false,
      important := JVal.jbool false, createdAt := "t2" }
    rfl rfl rfl

/-- **C7** — Fail-open read defaults: `read_json` is a total function — a
failed read (`parsed = none`, covering a missing, unreadable or unparseable
file) yields the empty mapping `{}` for the sessions and todos documents
and the empty sequence `[]` for the users document, and a successful parse
is returned unchanged; no failure ever propagates to the caller. -/
theorem C7_read_json_failopen :
    read_json StoreFile.sessionsFile none = .jobj [] ∧
    read_json StoreFile.todosFile none = .jobj [] ∧
    read_json StoreFile.usersFile none = .jarr [] ∧
    (∀ (p : StoreFile) (v : JVal), read_json p (some v) = v) :=
  ⟨rfl, rfl, rfl, fun _ _ => rfl⟩

-- ---------- boolean-coercion lemmas ----------

theorem applyPatch_done_coerced (body : PatchBody) (t : Task) (v : JVal)
    (h : body.done = some v) : (applyPatch body t).done = .jbool (truthy v) := by
  obtain ⟨bt, bd, bi⟩ := body
  cases h
  cases bt <;> cases bi <;> rfl

theorem applyPatch_important_coerced (body : PatchBody) (t : Task) (v : JVal)
    (h : body.important = some v) :
    (applyPatch body t).important = .jbool (truthy v) := by
  obtain ⟨bt, bd, bi⟩ := body
  cases h
  cases bt <;> cases bd <;> rfl

/-- **C10** — Boolean coercion invariant: tasks written by Create or Update
carry `bool()`-coerced `done` / `important` fields (strict booleans,
whatever JSON value was supplied — no 400 for a non-boolean `done`), with
truthiness deciding the stored flag (`"no"` ↦ `true`, `0` ↦ `false`);
Import, by contrast, stores the supplied tasks verbatim and so does not
preserve the invariant (a task with `done = "yes"` is stored as-is). -/
theorem C10_bool_coercion_invariant :
    (∀ (m : TodosMap) (u : String) (body : CreateBody) (millis : Nat)
        (hex now : String) (m' : TodosMap) (task : Task),
      api_create_task m u body millis hex now = .ok (m', task) →
      task.done = .jbool (truthy (body.done.getD (.jbool false))) ∧
      task.important
        = .jbool (truthy (body.important.getD (.jbool false)))) ∧
    (∀ (m : TodosMap) (u tid : String) (body : PatchBody) (m' : TodosMap)
        (t' : Task) (v : JVal),
      api_update_task m u tid body = .ok (m', t') →
      (body.done = some v → t'.done = .jbool (truthy v)) ∧
      (body.important = some v → t'.important = .jbool (truthy v))) ∧
    (∀ (m : TodosMap) (u : String) (body : CreateBody) (millis : Nat)
        (hex now : String) (e : ApiErr),
      pyStrip (body.title.getD "") ≠ "" →
      api_create_task m u body millis hex now ≠ .error e) ∧
    (truthy (.jstr "no") = true ∧ truthy (.jnum 0) = false) ∧
    (api_import [] "alice"
        (.lst [{ id := "a", title := JVal.jstr "x",
                 done := JVal.jstr "yes", important := JVal.jnum 1,
                 createdAt := "t0" }])
      = .ok [("alice",
          [{ id := "a", title := JVal.jstr "x", done := JVal.jstr "yes",
             important := JVal.jnum 1, createdAt := "t0" }])] ∧
      ∀ b : Bool,
        ({ id := "a", title := JVal.jstr "x", done := JVal.jstr "yes",
           important := JVal.jnum 1, createdAt := "t0" } : Task).done
          ≠ .jbool b) := by
  refine ⟨?_, ?_, ?_, ⟨rfl, rfl⟩, rfl, ?_⟩
  · intro m u body millis hex now m' task h
    unfold api_create_task at h
    by_cases ht : pyStrip (body.title.getD "") = ""
    · simp [ht] at h
    · simp only [ht, if_neg, if_false] at h
      obtain ⟨hm, htask⟩ := Prod.mk.injEq .. ▸ (Except.ok.injEq .. ▸ h)
      subst htask
      exact ⟨rfl, rfl⟩
  · intro m u tid body m' t' v h
    obtain ⟨l, hu, -⟩ := api_update_task_ok m u tid body m' t' h
    obtain ⟨t, -, he⟩ := updateFirst_result tid body _ l t' hu
    subst he
    exact ⟨applyPatch_done_coerced body t v,
      applyPatch_important_coerced body t v⟩
  · intro m u body millis hex now e ht
    unfold api_create_task
    rw [if_neg ht]
    intro hc
    cases hc
  · intro b h
    cases h

/-- Witness for C10: creating with `done = "no"` stores `done = true`,
a non-boolean `done` does not make Create answer 400, and updating with
`done = 0` stores `done = false`. -/
theorem C10_bool_coercion_invariant_witness :
    ({ id := genId 5 "abcd1234", title := JVal.jstr "x",
       done := JVal.jbool true, important := JVal.jbool false,
       createdAt := "t0" } : Task).done
      = .jbool (truthy ((⟨some "x", some (.jstr "no"), none⟩ :
          CreateBody).done.getD (.jbool false))) ∧
    api_create_task [] "u" ⟨some "x", some (.jstr "no"), none⟩ 5
        "abcd1234" "t0" ≠ .error ApiErr.validation ∧
    ((⟨none, some (.jnum 0), none⟩ : PatchBody).done = some (.jnum 0) →
      ({ id := "a", title := JVal.jstr "x", done := JVal.jbool false,
         important := JVal.jbool false, createdAt := "t0" } : Task).done
        = .jbool (truthy (.jnum 0))) :=
  ⟨(C10_bool_coercion_invariant.1 [] "u" ⟨some "x", some (.jstr "no"), none⟩
      5 "abcd1234" "t0"
      [("u", [{ id := genId 5 "abcd1234", title := JVal.jstr "x",
                done := JVal.jbool true, important := JVal.jbool false,
                createdAt := "t0" }])]
      { id := genId 5 "abcd1234", title := JVal.jstr "x",
        done := JVal.jbool true, important := JVal.jbool false,
        createdAt := "t0" } rfl).1,
   C10_bool_coercion_invariant.2.2.1 [] "u"
     ⟨some "x", some (.jstr "no"), none⟩ 5 "abcd1234" "t0"
     ApiErr.validation (by simp [pyStrip]),
   (C10_bool_coercion_invariant.2.1
     [("alice", [{ id := "a", title := JVal.jstr "x",
                   done := JVal.jbool true, important := JVal.jbool false,
                   createdAt := "t0" }])] "alice" "a"
     ⟨none, some (.jnum 0), none⟩
     (dictSet
       [("alice", [{ id := "a", title := JVal.jstr "x",
                     done := JVal.jbool true,
                     important := JVal.jbool false,
                     createdAt := "t0" }])] "alice"
       [{ id := "a", title := JVal.jstr "x", done := JVal.jbool false,
          important := JVal.jbool false, createdAt := "t0" }])
     { id := "a", title := JVal.jstr "x", done := JVal.jbool false,
       important := JVal.jbool false, createdAt := "t0" }
     (.jnum 0) rfl).1⟩

end TodoApp
